import Mathlib

/-!
Shallow embedding of the deal-scoring and listing-aggregation pipeline of the
`dealio` repository, taken from `src/app/guitars/[id]/page.tsx`
(`loadDealsData` and `handleManualRefresh`).  Machine numbers are modelled as
exact rationals (`ℚ`); JavaScript truthiness on optional numbers and strings is
modelled explicitly (`numFalsy`, `strFalsy`); the stable ES2019
`Array.prototype.sort` is modelled by Mathlib's stable `List.insertionSort`
with the same comparator preorder.
-/

namespace Dealio

/-- JS falsiness of an optional number: `undefined`/`null` and `0` are falsy;
every other number (negative numbers included) is truthy. -/
def numFalsy : Option ℚ → Bool
  | none => true
  | some q => q == 0

/-- JS falsiness of an optional string: `undefined`/`null` and `""` are falsy. -/
def strFalsy : Option String → Bool
  | none => true
  | some s => s == ""

/-- JS `a || b` on an optional number `a` with default `b`. -/
def orNum (a : Option ℚ) (b : ℚ) : ℚ :=
  match a with
  | none => b
  | some q => if q = 0 then b else q

/-- JS `a || b` on an optional string `a` with default `b`. -/
def orStr (a : Option String) (b : String) : String :=
  match a with
  | none => b
  | some s => if s = "" then b else s

/-- A raw listing record from `data.deals.all`, with the loosely typed fields
that `loadDealsData` reads (`page.tsx` lines 236–273). -/
structure RawListing where
  id : Option String
  price : Option ℚ
  source : Option String
  listingUrl : Option String
  condition : Option String
  location : Option String
  has_real_data : Bool
  description : Option String
deriving DecidableEq, Repr

/-- The canonical listing built by the `map` callback (`page.tsx` lines 259–272),
restricted to the fields the pipeline logic reads. -/
structure DealListing where
  id : String
  price : ℚ
  marketplace : String
  sellerLocation : String
  listingUrl : String
  condition : String
  dealScore : ℤ
  sellerVerified : Bool
deriving DecidableEq, Repr

/-- The validation guard of the `map` callback (`page.tsx` line 240):
`if (!listing.price || !listing.source || !listing.listingUrl) return null`. -/
def isRejected (r : RawListing) : Bool :=
  numFalsy r.price || strFalsy r.source || strFalsy r.listingUrl

/-- The per-listing reference price (`page.tsx` line 246):
`data.marketData?.averagePrice || guitarData?.avgMarketPrice || listing.price * 1.2`. -/
def referencePrice (apiAvg cachedAvg : Option ℚ) (price : ℚ) : ℚ :=
  orNum apiAvg (orNum cachedAvg (price * (6 / 5)))

/-- The clamped base score (`page.tsx` lines 247–248):
`priceDiff = ((marketPrice - price) / marketPrice) * 100`;
`baseScore = Math.max(50, Math.min(95, 75 + priceDiff))`. -/
def baseScore (marketPrice price : ℚ) : ℚ :=
  max 50 (min 95 (75 + ((marketPrice - price) / marketPrice) * 100))

/-- The deal score attached by the pipeline (`page.tsx` lines 247–264):
base score, then `+5` if condition is `'New'`, `+3` if `'Excellent'`,
`+2` if `has_real_data`, finally `Math.min(100, Math.floor(dealScore))`. -/
def dealScoreCode (marketPrice price : ℚ) (condition : String)
    (hasRealData : Bool) : ℤ :=
  let d0 := baseScore marketPrice price
  let d1 := if condition = "New" then d0 + 5 else d0
  let d2 := if condition = "Excellent" then d1 + 3 else d1
  let d3 := if hasRealData then d2 + 2 else d2
  min 100 ⌊d3⌋

/-- One step of the `data.deals.all.map` callback (`page.tsx` lines 238–272):
`none` exactly when the validation guard fires, otherwise the canonical
listing with its deal score attached. -/
def mapListing (apiAvg cachedAvg : Option ℚ) (r : RawListing) :
    Option DealListing :=
  if isRejected r then
    none
  else
    let price := r.price.getD 0
    let source := r.source.getD ""
    let marketPrice := referencePrice apiAvg cachedAvg price
    some
      { id := orStr r.id (source ++ "-" ++ toString price)
        price := price
        marketplace := source
        sellerLocation := orStr r.location "Location not specified"
        listingUrl := r.listingUrl.getD ""
        condition := orStr r.condition "Used"
        dealScore :=
          dealScoreCode marketPrice price (r.condition.getD "") r.has_real_data
        sellerVerified := r.has_real_data }

/-- `data.deals.all.map(...).filter(Boolean)` (`page.tsx` lines 238–274):
map every raw record, then drop the `null` results. -/
def processDeals (apiAvg cachedAvg : Option ℚ) (raws : List RawListing) :
    List DealListing :=
  (raws.map (mapListing apiAvg cachedAvg)).reduceOption

/-- The number of records the guard rejects; the code emits one
`console.warn` per such record (`page.tsx` lines 241–242). -/
def rejectedCount (raws : List RawListing) : ℕ :=
  (raws.filter isRejected).length

/-- The sort comparator `(a, b) => b.dealScore - a.dealScore` as a preorder:
`a` may precede `b` iff `b.dealScore ≤ a.dealScore`. -/
def scoreGe (a b : DealListing) : Prop :=
  b.dealScore ≤ a.dealScore

instance : DecidableRel scoreGe := fun a b =>
  inferInstanceAs (Decidable (b.dealScore ≤ a.dealScore))

instance : IsTotal DealListing scoreGe :=
  ⟨fun a b => le_total b.dealScore a.dealScore⟩

instance : IsTrans DealListing scoreGe :=
  ⟨fun _ _ _ hab hbc => le_trans hbc hab⟩

/-- `allListings.sort((a, b) => b.dealScore - a.dealScore)` (`page.tsx`
line 306).  ES2019 `Array.prototype.sort` is stable, and a stable sort is
determined by its comparator, so the stable `List.insertionSort` with the
same preorder computes the same output. -/
def rankListings (l : List DealListing) : List DealListing :=
  l.insertionSort scoreGe

/-- The fixed simulated source label list (`page.tsx` line 310). -/
def sourceLabels : List String :=
  ["Reverb", "eBay", "Facebook", "Craigslist", "Guitar Center", "Sweetwater"]

/-- The `scrapingStatus` React state (`page.tsx` lines 56–63), restricted to
the fields the scan logic writes; `lastUpdate` and `nextScan` are wall-clock
display strings and are not modelled. -/
structure ScrapingStatus where
  isActive : Bool
  progress : ℚ
  currentSource : String
  completedSources : List String
  totalSources : ℕ
deriving DecidableEq, Repr

/-- The initial `scrapingStatus` value (`page.tsx` lines 78–86). -/
def initialStatus : ScrapingStatus :=
  { isActive := false
    progress := 0
    currentSource := ""
    completedSources := []
    totalSources := 6 }

/-- The status update at the start of `loadDealsData` (`page.tsx` line 198),
issued before the fetch:
`{...prev, isActive: true, progress: 0, currentSource: 'Initializing...'}`. -/
def startStatus (prev : ScrapingStatus) : ScrapingStatus :=
  { prev with
    isActive := true
    progress := 0
    currentSource := "Initializing..." }

/-- The status update of simulated step `i` (`page.tsx` lines 315–320). -/
def stepStatus (st : ScrapingStatus) (i : ℕ) : ScrapingStatus :=
  { st with
    currentSource := sourceLabels.getD i ""
    progress := ((i : ℚ) + 1) / (sourceLabels.length : ℚ) * 100
    completedSources := sourceLabels.take (i + 1) }

/-- The `setDealListings` call of simulated step `i`, when any
(`page.tsx` lines 322–329): step 0 reveals `slice(0, min(3, n))`, step 2
`slice(0, min(6, n))`, the last step the full list. -/
def revealAt (ranked : List DealListing) (i : ℕ) : Option (List DealListing) :=
  if i = 0 then some (ranked.take (min 3 ranked.length))
  else if i = 2 then some (ranked.take (min 6 ranked.length))
  else if i = sourceLabels.length - 1 then some ranked
  else none

/-- The outcome of the upstream fetch: an HTTP error or non-ok response, or a
parsed body carrying the optional market average, the cached guitar average
and the `deals.all` array. -/
inductive FetchOutcome where
  | failure
  | success (apiAvg cachedAvg : Option ℚ) (raws : List RawListing)
deriving DecidableEq, Repr

/-- The observable effect of one `loadDealsData` run: the sequence of
`setScrapingStatus` values, the sequence of `setDealListings` values, and the
final settled values of the two states. -/
structure ScanResult where
  statusTrace : List ScrapingStatus
  revealTrace : List (List DealListing)
  finalStatus : ScrapingStatus
  finalListings : List DealListing
deriving DecidableEq, Repr

/-- `loadDealsData` (`page.tsx` lines 194–356) as a function of the previous
status and the fetch outcome.  On a non-ok response the code throws and the
`catch` block sets `isActive := false` and an empty listing set; on success it
maps, filters and sorts the listings, then iterates the six simulated source
steps, revealing prefixes, and finally clears `isActive`.  The inter-step
`setTimeout` delays are timing only and are not modelled. -/
def loadDealsData (prev : ScrapingStatus) (outcome : FetchOutcome) :
    ScanResult :=
  let st0 := startStatus prev
  match outcome with
  | .failure =>
      let stErr := { st0 with isActive := false }
      { statusTrace := [st0, stErr]
        revealTrace := [[]]
        finalStatus := stErr
        finalListings := [] }
  | .success apiAvg cachedAvg raws =>
      let allListings := rankListings (processDeals apiAvg cachedAvg raws)
      if allListings.isEmpty then
        let stDone := { st0 with isActive := false }
        { statusTrace := [st0, stDone]
          revealTrace := [[]]
          finalStatus := stDone
          finalListings := [] }
      else
        let idxs := List.range sourceLabels.length
        let steps := idxs.map (stepStatus st0)
        let reveals := (idxs.map (revealAt allListings)).reduceOption
        let stDone :=
          { stepStatus st0 (sourceLabels.length - 1) with isActive := false }
        { statusTrace := st0 :: steps ++ [stDone]
          revealTrace := reveals
          finalStatus := stDone
          finalListings := reveals.getLastD [] }

/-- The page state `handleManualRefresh` reads and the scan writes. -/
structure PageState where
  guitarPresent : Bool
  scrapingStatus : ScrapingStatus
  dealListings : List DealListing
deriving DecidableEq, Repr

/-- `handleManualRefresh` (`page.tsx` lines 358–362): run `loadDealsData` only
when guitar data is present and no scan is active; otherwise do nothing. -/
def handleManualRefresh (st : PageState) (outcome : FetchOutcome) : PageState :=
  if st.guitarPresent && !st.scrapingStatus.isActive then
    let r := loadDealsData st.scrapingStatus outcome
    { st with scrapingStatus := r.finalStatus, dealListings := r.finalListings }
  else
    st

/-! ### The scoring formula as the specification words it -/

/-- `clamp(x, lo, hi)` as used by the specification's scoring formula. -/
def clamp (lo hi x : ℚ) : ℚ :=
  max lo (min hi x)

/-- The specification's condition bonus: 5 for New, 3 for Excellent, else 0. -/
def conditionBonus (c : String) : ℚ :=
  if c = "New" then 5 else if c = "Excellent" then 3 else 0

/-- The specification's verification bonus: 2 for a verified seller, else 0. -/
def verificationBonus (v : Bool) : ℚ :=
  if v then 2 else 0

/-- The deal-score formula exactly as the specification states it:
`min(100, floor(clamp(75 + priceDelta*100, 50, 95) + conditionBonus +
verificationBonus))`. -/
def dealScoreSpec (marketPrice price : ℚ) (c : String) (v : Bool) : ℤ :=
  min 100
    ⌊clamp 50 95 (75 + ((marketPrice - price) / marketPrice) * 100) +
      conditionBonus c + verificationBonus v⌋

/-- C1: for every listing and every positive reference market price, the score
attached by the scorer equals
`min(100, floor(clamp(75 + ((marketPrice - price)/marketPrice)*100, 50, 95) +
conditionBonus + verificationBonus))` with condition bonus 5 for New, 3 for
Excellent, 0 otherwise, and verification bonus 2 for a verified seller. -/
theorem dealScore_matches_spec (mp p : ℚ) (c : String) (v : Bool)
    (h : 0 < mp) :
    dealScoreCode mp p c v = dealScoreSpec mp p c v := by
  have hne : ("New" : String) ≠ "Excellent" := by decide
  cases v <;> by_cases hn : c = "New" <;> by_cases he : c = "Excellent" <;>
    simp_all [dealScoreCode, dealScoreSpec, clamp, conditionBonus,
      verificationBonus, baseScore, add_assoc]

/-- Witness for C1 at the specification's first worked example. -/
theorem dealScore_matches_spec_witness :
    (0 : ℚ) < 1000 ∧
      dealScoreCode 1000 700 "Excellent" true =
        dealScoreSpec 1000 700 "Excellent" true :=
  ⟨by norm_num, dealScore_matches_spec 1000 700 "Excellent" true (by norm_num)⟩

/-- C10: for every listing scored by the main pipeline path with a positive
reference market price, the attached score lies in `[50, 100]`: the base is
clamped to at least 50, every bonus is non-negative, and the final value is
capped at 100. -/
theorem dealScore_in_range (mp p : ℚ) (c : String) (v : Bool) (h : 0 < mp) :
    50 ≤ dealScoreCode mp p c v ∧ dealScoreCode mp p c v ≤ 100 := by
  have h0 : (50 : ℚ) ≤ baseScore mp p := le_max_left _ _
  constructor
  · simp only [dealScoreCode]
    refine le_min (by norm_num) (Int.le_floor.mpr ?_)
    push_cast
    split_ifs <;> linarith
  · exact min_le_left _ _

/-- Witness for C10 at the specification's third worked example. -/
theorem dealScore_in_range_witness :
    (0 : ℚ) < 1000 ∧
      (50 ≤ dealScoreCode 1000 1300 "Used" false ∧
        dealScoreCode 1000 1300 "Used" false ≤ 100) :=
  ⟨by norm_num, dealScore_in_range 1000 1300 "Used" false (by norm_num)⟩

/-! ### Deduplication and sort order of the rank step -/

/-- A scored listing used to exercise the rank step. -/
def dupListingA : DealListing :=
  { id := "x"
    price := 100
    marketplace := "Reverb"
    sellerLocation := "A"
    listingUrl := "u"
    condition := "Used"
    dealScore := 80
    sellerVerified := false }

/-- A second listing carrying the same `id` as `dupListingA`. -/
def dupListingB : DealListing :=
  { dupListingA with price := 200, sellerLocation := "B" }

/-- C2 counterexample: two listings with the same `id` both survive the rank
step, so its output is not free of duplicate ids and no deduplication by first
occurrence happens. -/
theorem rank_keeps_duplicate_ids :
    (rankListings [dupListingA, dupListingB]).map DealListing.id =
      ["x", "x"] := by decide

/-- C2 amended: the rank step performs no deduplication at all — its output is
a permutation of its input, so listings sharing an `id` all survive, each with
its input multiplicity. -/
theorem rank_is_permutation (l : List DealListing) :
    (rankListings l).Perm l :=
  List.perm_insertionSort scoreGe l

/-- The more expensive of two equal-score listings. -/
def tieExpensive : DealListing :=
  { dupListingA with id := "a", price := 300 }

/-- The cheaper of two equal-score listings, placed second in input order. -/
def tieCheap : DealListing :=
  { dupListingA with id := "b", price := 100 }

/-- C3 counterexample: with two equal-score listings where the more expensive
one comes first in the input, the rank step keeps the input order instead of
putting the cheaper listing first. -/
theorem rank_ignores_price_tiebreak :
    rankListings [tieExpensive, tieCheap] = [tieExpensive, tieCheap] ∧
      tieExpensive.dealScore = tieCheap.dealScore ∧
      tieCheap.price < tieExpensive.price := by
  refine ⟨by decide, rfl, by norm_num [tieCheap, tieExpensive, dupListingA]⟩

/-- Equal-score listings keep their relative input order through
`List.orderedInsert` when the inserted element has the probed score: the
skipped elements all have strictly larger scores. -/
theorem filter_orderedInsert_of_eq (s : ℤ) (a : DealListing)
    (h : a.dealScore = s) (l : List DealListing) :
    (List.orderedInsert scoreGe a l).filter (fun x => x.dealScore == s) =
      a :: l.filter (fun x => x.dealScore == s) := by
  induction l with
  | nil => simp [List.orderedInsert, h]
  | cons b t ih =>
    by_cases hr : scoreGe a b
    · simp [List.orderedInsert, hr, List.filter_cons, h]
    · have hb : ¬ b.dealScore = s := by
        simp only [scoreGe, not_le] at hr
        omega
      simp [List.orderedInsert, hr, List.filter_cons, hb, ih]

/-- Inserting an element of a different score leaves the probed-score filter
unchanged. -/
theorem filter_orderedInsert_of_ne (s : ℤ) (a : DealListing)
    (h : ¬ a.dealScore = s) (l : List DealListing) :
    (List.orderedInsert scoreGe a l).filter (fun x => x.dealScore == s) =
      l.filter (fun x => x.dealScore == s) := by
  induction l with
  | nil => simp [List.orderedInsert, h]
  | cons b t ih =>
    by_cases hr : scoreGe a b
    · simp [List.orderedInsert, hr, List.filter_cons, h]
    · simp [List.orderedInsert, hr, List.filter_cons, ih]

/-- C3 amended: the rank step sorts by non-increasing score, and among
listings of equal score the original input order is preserved (the sort is
stable); price plays no role in the order. -/
theorem rank_sorted_and_stable (l : List DealListing) (s : ℤ) :
    (rankListings l).Sorted scoreGe ∧
      (rankListings l).filter (fun x => x.dealScore == s) =
        l.filter (fun x => x.dealScore == s) := by
  refine ⟨List.sorted_insertionSort scoreGe l, ?_⟩
  unfold rankListings
  induction l with
  | nil => rfl
  | cons a t ih =>
    show (List.orderedInsert scoreGe a
      (List.insertionSort scoreGe t)).filter _ = _
    by_cases ha : a.dealScore = s
    · rw [filter_orderedInsert_of_eq s a ha, ih, List.filter_cons]
      simp [ha]
    · rw [filter_orderedInsert_of_ne s a ha, ih, List.filter_cons]
      simp [ha]

/-! ### Rejection condition of the normalizer and the fallback reference -/

/-- A raw listing with a negative price and all other required fields set. -/
def negPriceRaw : RawListing :=
  { id := some "n1"
    price := some (-500)
    source := some "eBay"
    listingUrl := some "http://example.com/n1"
    condition := some "Used"
    location := none
    has_real_data := false
    description := none }

/-- C4 counterexample: a raw listing whose price is the negative number `-500`
passes the validation guard and is mapped to a canonical listing, so negative
prices are not rejected. -/
theorem negative_price_not_rejected :
    negPriceRaw.price = some (-500) ∧ isRejected negPriceRaw = false ∧
      (mapListing none none negPriceRaw).isSome = true := by decide

/-- C4 amended: a raw listing is excluded from the pipeline exactly when its
price is missing or equal to 0, its source is missing or empty, or its
listing URL is missing or empty (JavaScript falsiness); a negative price is
accepted. -/
theorem rejected_iff (apiAvg cachedAvg : Option ℚ) (r : RawListing) :
    mapListing apiAvg cachedAvg r = none ↔
      (r.price = none ∨ r.price = some 0 ∨ r.source = none ∨
        r.source = some "" ∨ r.listingUrl = none ∨ r.listingUrl = some "") := by
  rcases r with ⟨id, price, source, url, cond, loc, hrd, desc⟩
  rcases price with _ | q <;> rcases source with _ | sv <;> rcases url with _ | uv <;>
    simp [mapListing, isRejected, numFalsy, strFalsy]
  all_goals
    by_cases hq : q = 0 <;> by_cases hs : sv = "" <;> by_cases hu : uv = "" <;>
      simp_all

/-- C5 counterexample: with the market averages absent, the listings priced
100 and 300 are scored against references 120 and 360 respectively — not
against their arithmetic mean 200, and not against any single shared value. -/
theorem fallback_not_mean :
    referencePrice none none 100 = 120 ∧
      referencePrice none none 300 = 360 ∧
      ((100 : ℚ) + 300) / 2 = 200 ∧
      referencePrice none none 100 ≠ ((100 : ℚ) + 300) / 2 ∧
      referencePrice none none 100 ≠ referencePrice none none 300 := by
  norm_num [referencePrice, orNum]

/-- C5 amended: when the caller supplies no market price (the API average and
the cached guitar average are both absent), every accepted listing is scored
against a per-listing reference equal to 1.2 times its own price; no batch
mean is computed and no shared effective market price exists. -/
theorem fallback_reference_per_listing (r : RawListing)
    (h : isRejected r = false) :
    (mapListing none none r).map DealListing.dealScore =
      some (dealScoreCode (r.price.getD 0 * (6 / 5)) (r.price.getD 0)
        (r.condition.getD "") r.has_real_data) := by
  simp [mapListing, h, referencePrice, orNum]

/-- A well-formed raw listing accepted by the guard. -/
def plainRaw : RawListing :=
  { id := some "p1"
    price := some 100
    source := some "Reverb"
    listingUrl := some "http://example.com/p1"
    condition := none
    location := none
    has_real_data := true
    description := none }

/-- Witness for the amended C5 on a concrete accepted listing. -/
theorem fallback_reference_per_listing_witness :
    isRejected plainRaw = false ∧
      (mapListing none none plainRaw).map DealListing.dealScore =
        some (dealScoreCode (plainRaw.price.getD 0 * (6 / 5))
          (plainRaw.price.getD 0) (plainRaw.condition.getD "")
          plainRaw.has_real_data) :=
  ⟨by decide, fallback_reference_per_listing plainRaw (by decide)⟩

/-! ### Scan lifecycle: failure, completeness, concurrency, isolation -/

/-- C6 counterexample: on a failed upstream fetch the status trace is
`[isActive = true, isActive = false]` — the scan does become active before
the fetch result is known, so `isActive` is not kept false throughout. -/
theorem failed_fetch_sets_active :
    ((loadDealsData initialStatus .failure).statusTrace.map
      ScrapingStatus.isActive) = [true, false] := rfl

/-- C6 amended: on a failed upstream fetch the scan sets `isActive := true`
once at entry (before the fetch), performs no simulated source step, and
terminates with `isActive = false` and an empty listing set. -/
theorem failed_fetch_terminal (prev : ScrapingStatus) :
    (loadDealsData prev .failure).finalStatus.isActive = false ∧
      (loadDealsData prev .failure).finalListings = [] ∧
      (loadDealsData prev .failure).statusTrace =
        [startStatus prev, { startStatus prev with isActive := false }] ∧
      (loadDealsData prev .failure).revealTrace = [[]] :=
  ⟨rfl, rfl, rfl, rfl⟩

/-- C7: for every scan over a successful fetch, the listing set revealed after
the final step equals the full output of the rank step — nothing is dropped
between the ranked set and the final revealed set. -/
theorem final_reveal_complete (prev : ScrapingStatus)
    (apiAvg cachedAvg : Option ℚ) (raws : List RawListing) :
    (loadDealsData prev (.success apiAvg cachedAvg raws)).finalListings =
      rankListings (processDeals apiAvg cachedAvg raws) := by
  unfold loadDealsData
  by_cases he : (rankListings (processDeals apiAvg cachedAvg raws)).isEmpty
  · simp only [he, if_true]
    exact (List.isEmpty_iff.mp he).symm
  · simp only [he, if_false]
    have hr : List.range sourceLabels.length = [0, 1, 2, 3, 4, 5] := rfl
    rw [hr]
    simp [revealAt, List.reduceOption, sourceLabels, List.getLastD]

/-- C8: a manual refresh request that arrives while a scan is already active
is a no-op — the page state, including the running scan's status and the
revealed listings, is left unchanged. -/
theorem refresh_noop_while_active (st : PageState) (outcome : FetchOutcome)
    (h : st.scrapingStatus.isActive = true) :
    handleManualRefresh st outcome = st := by
  simp [handleManualRefresh, h]

/-- A page state with a scan in progress. -/
def busyState : PageState :=
  { guitarPresent := true
    scrapingStatus := { initialStatus with isActive := true }
    dealListings := [] }

/-- Witness for C8 on a concrete busy page state. -/
theorem refresh_noop_while_active_witness :
    busyState.scrapingStatus.isActive = true ∧
      handleManualRefresh busyState .failure = busyState :=
  ⟨rfl, refresh_noop_while_active busyState .failure rfl⟩

/-- Each raw record contributes either one canonical listing or one rejection:
the valid-listing count and the rejected count always sum to the batch size. -/
theorem processDeals_length_add (apiAvg cachedAvg : Option ℚ) :
    ∀ raws : List RawListing,
      (processDeals apiAvg cachedAvg raws).length + rejectedCount raws =
        raws.length := by
  intro raws
  induction raws with
  | nil => rfl
  | cons r t ih =>
    cases h : isRejected r with
    | true =>
      have hm : mapListing apiAvg cachedAvg r = none := by
        simp [mapListing, h]
      simp [processDeals, rejectedCount, List.map_cons, hm,
        List.reduceOption_cons_of_none, List.filter_cons, h] at ih ⊢
      omega
    | false =>
      have hm : (mapListing apiAvg cachedAvg r).isSome = true := by
        simp [mapListing, h]
      rcases Option.isSome_iff_exists.mp hm with ⟨d, hd⟩
      simp [processDeals, rejectedCount, List.map_cons, hd,
        List.reduceOption_cons_of_some, List.filter_cons, h] at ih ⊢
      omega

/-- C9: a batch of `N` raw listings of which exactly `K` fail the validation
guard yields exactly `N − K` canonical listings — one bad record never aborts
the batch — and the rejection count (one `console.warn` per rejected record)
equals `K`. -/
theorem rejection_isolation (apiAvg cachedAvg : Option ℚ)
    (raws : List RawListing) (N K : ℕ) (hN : raws.length = N)
    (hK : (raws.filter isRejected).length = K) :
    (processDeals apiAvg cachedAvg raws).length = N - K ∧
      rejectedCount raws = K := by
  have h := processDeals_length_add apiAvg cachedAvg raws
  unfold rejectedCount at *
  omega

/-- A raw listing with a missing price, rejected by the guard. -/
def badRaw : RawListing :=
  { id := none
    price := none
    source := some "eBay"
    listingUrl := some "http://example.com/b1"
    condition := none
    location := none
    has_real_data := false
    description := none }

/-- Witness for C9 on a two-record batch with one malformed record. -/
theorem rejection_isolation_witness :
    ([plainRaw, badRaw] : List RawListing).length = 2 ∧
      (([plainRaw, badRaw] : List RawListing).filter isRejected).length = 1 ∧
      ((processDeals none none [plainRaw, badRaw]).length = 2 - 1 ∧
        rejectedCount [plainRaw, badRaw] = 1) :=
  ⟨by decide, by decide,
    rejection_isolation none none [plainRaw, badRaw] 2 1 (by decide)
      (by decide)⟩

end Dealio
